import Mathlib

/-!
Verification of the Canoja cannabis-license normalization pipelines.

This file is a shallow embedding of the eight per-jurisdiction scrapers in
`src/scrapers/` (alberta.py, bc.py, colorado.py, federal.py, jamaica_cla.py,
michigan.py, ontario.py, saskatchewan.py).  Each Python helper is translated
to a Lean definition of the same name (snake_case preserved), one namespace
per jurisdiction.  External collaborators (pandas date parsing, network I/O,
spreadsheet loading) are modelled by explicit small functions documented as
such; the per-record transform logic, the value normalizers and the batch
drivers are translated from the source line by line.

Python's dynamic values are modelled by `PyVal` (None, str, int, float,
datetime); a raw record (`Row`) is a total map from column names to `PyVal`,
where a missing column yields `PyVal.pnone` (dict.get's behaviour, and
pandas NaN cells are likewise modelled as `pnone` since `pd.isna` treats
both alike).  Date/time values carry no time-of-day because every modelled
input parses to midnight.
-/

/-- A naive datetime at midnight (all modelled inputs have zero time). -/
structure PDateTime where
  year : Nat
  month : Nat
  day : Nat
deriving DecidableEq

/-- Gregorian leap-year rule. -/
def isLeapYear (y : Nat) : Bool :=
  (y % 4 == 0 && y % 100 != 0) || (y % 400 == 0)

/-- Number of days in a month of a given year. -/
def daysInMonth (y m : Nat) : Nat :=
  if m == 2 then (if isLeapYear y then 29 else 28)
  else if m == 4 || m == 6 || m == 9 || m == 11 then 30
  else 31

/-- Validity of a civil date, as Python's datetime constructor enforces. -/
def validDate (y m d : Nat) : Bool :=
  1 ≤ y && 1 ≤ m && m ≤ 12 && 1 ≤ d && d ≤ daysInMonth y m

/-- Days before January 1 of year `y`, counting from year 1. -/
def daysBeforeYear (y : Nat) : Nat :=
  365 * (y - 1) + (y - 1) / 4 - (y - 1) / 100 + (y - 1) / 400

/-- Days in the months of year `y` before month `m`. -/
def daysBeforeMonth (y m : Nat) : Nat :=
  (List.range (m - 1)).foldl (fun acc i => acc + daysInMonth y (i + 1)) 0

/-- Proleptic-Gregorian ordinal day number; differences give `timedelta.days`
for midnight timestamps. -/
def PDateTime.toOrdinal (t : PDateTime) : Nat :=
  daysBeforeYear t.year + daysBeforeMonth t.year t.month + t.day

/-- Zero-pad a number to width 2. -/
def pad2 (n : Nat) : String :=
  if n < 10 then "0" ++ toString n else toString n

/-- Zero-pad a number to width 4. -/
def pad4 (n : Nat) : String :=
  if n < 10 then "000" ++ toString n
  else if n < 100 then "00" ++ toString n
  else if n < 1000 then "0" ++ toString n
  else toString n

/-- `Timestamp.isoformat()` of a midnight timestamp. -/
def PDateTime.isoformat (t : PDateTime) : String :=
  pad4 t.year ++ "-" ++ pad2 t.month ++ "-" ++ pad2 t.day ++ "T00:00:00"

/-- Python `str()` of a midnight datetime object (space separator, no `T`);
this is the form `json.dump(..., default=str)` serializes. -/
def PDateTime.pyStr (t : PDateTime) : String :=
  pad4 t.year ++ "-" ++ pad2 t.month ++ "-" ++ pad2 t.day ++ " 00:00:00"

/-- Numeric value of a list of decimal digit characters. -/
def natOfDigits (cs : List Char) : Nat :=
  cs.foldl (fun acc c => 10 * acc + (c.toNat - '0'.toNat)) 0

/-- Is every character a decimal digit (and the list non-empty)? -/
def allDigits (cs : List Char) : Bool :=
  !cs.isEmpty && cs.all Char.isDigit

/-- Python `str.strip()`: drop surrounding whitespace.  (Implemented over
character lists so that proofs and witnesses can evaluate it.) -/
def pyStrip (s : String) : String :=
  String.mk (((s.data.dropWhile Char.isWhitespace).reverse.dropWhile
    Char.isWhitespace).reverse)

/-- Python `str.lower()` (ASCII, as in all modelled inputs). -/
def pyLower (s : String) : String :=
  String.mk (s.data.map Char.toLower)

/-- Python `str.upper()` (ASCII). -/
def pyUpper (s : String) : String :=
  String.mk (s.data.map Char.toUpper)

/-- `str.split(sep)` on character lists for a one-character separator. -/
def splitCharAux (c : Char) : List Char → List (List Char)
  | [] => [[]]
  | x :: rest =>
    if x = c then [] :: splitCharAux c rest
    else
      match splitCharAux c rest with
      | h :: t => (x :: h) :: t
      | [] => [[x]]

/-- Python `s.split(sep)` for a one-character separator. -/
def splitOnChar (c : Char) (s : String) : List String :=
  (splitCharAux c s.data).map String.mk

/-- Split on every character satisfying `p` (keeping empty pieces). -/
def splitPredAux (p : Char → Bool) : List Char → List (List Char)
  | [] => [[]]
  | x :: rest =>
    if p x then [] :: splitPredAux p rest
    else
      match splitPredAux p rest with
      | h :: t => (x :: h) :: t
      | [] => [[x]]

/-- Python `str.startswith`. -/
def strStartsWith (s pre : String) : Bool :=
  List.isPrefixOf pre.data s.data

/-- Python `sep.join(parts)`. -/
def joinSep (sep : String) (parts : List String) : String :=
  String.mk (List.intercalate sep.data (parts.map String.data))

/-- Modelled from the spec: behaviour of the external `pandas.to_datetime`
collaborator on the string shapes the sources feed it — slash dates such as
"7/10/2022" (month first, falling back to day-first when the first number
cannot be a month, pandas' documented disambiguation) and ISO dashed dates
such as "2025-01-12".  Anything else is an unparseable input (NaT / raised
error at the call sites).  Numeric epoch inputs are outside the modelled
domain; no claim exercises them. -/
def pdToDatetime (s : String) : Option PDateTime :=
  let t := pyStrip s
  let bySlash := splitOnChar '/' t
  let byDash := splitOnChar '-' t
  match bySlash with
  | [a, b, c] =>
    if allDigits a.data && allDigits b.data && allDigits c.data then
      let x := natOfDigits a.data
      let y := natOfDigits b.data
      let z := natOfDigits c.data
      if validDate z x y then some ⟨z, x, y⟩
      else if validDate z y x then some ⟨z, y, x⟩
      else none
    else none
  | _ =>
    match byDash with
    | [a, b, c] =>
      if allDigits a.data && allDigits b.data && allDigits c.data
          && a.length == 4 then
        let y := natOfDigits a.data
        let m := natOfDigits b.data
        let d := natOfDigits c.data
        if validDate y m d then some ⟨y, m, d⟩ else none
      else none
    | _ => none

/-- A parsed-date result as it lands in a document: either an ISO-8601
string (most jurisdictions) or a native Python datetime object (Michigan). -/
inductive DateResult where
  | isoStr (s : String)
  | pyDt (d : PDateTime)
deriving DecidableEq

/-- Does an optional date result hold an ISO string (or nothing)? -/
def isoOnly : Option DateResult → Bool
  | none => true
  | some (DateResult.isoStr _) => true
  | some (DateResult.pyDt _) => false

/-- Does an optional date result hold a native datetime object (or nothing)? -/
def pyDtOnly : Option DateResult → Bool
  | none => true
  | some (DateResult.pyDt _) => true
  | some (DateResult.isoStr _) => false

/-- A dynamic Python value as the scrapers receive them from rows/cells. -/
inductive PyVal where
  | pnone
  | pstr (s : String)
  | pint (n : Int)
  | pfloat (q : ℚ)
  | pdt (d : PDateTime)
deriving DecidableEq

/-- Python `str()`.  The textual form of a non-integral float is
approximated (no claim evaluates it); all other cases are exact. -/
def PyVal.pyStr : PyVal → String
  | PyVal.pnone => "None"
  | PyVal.pstr s => s
  | PyVal.pint n => toString n
  | PyVal.pfloat q => if q.den == 1 then toString q.num ++ ".0" else toString q
  | PyVal.pdt d => d.pyStr

/-- `pd.isna`: true for None (and NaN cells, which rows model as `pnone`). -/
def PyVal.isna : PyVal → Bool
  | PyVal.pnone => true
  | _ => false

/-- Python truthiness of a dynamic value. -/
def PyVal.truthy : PyVal → Bool
  | PyVal.pnone => false
  | PyVal.pstr s => s ≠ ""
  | PyVal.pint n => n ≠ 0
  | PyVal.pfloat q => q ≠ 0
  | PyVal.pdt _ => true

/-- Python truthiness of an `Optional[str]`. -/
def truthyOpt : Option String → Bool
  | none => false
  | some s => s ≠ ""

/-- Python `a or b` on `Optional[str]` values. -/
def pyOrOpt (a b : Option String) : Option String :=
  if truthyOpt a then a else b

/-- Python `a or ''` on an `Optional[str]`. -/
def orEmpty : Option String → String
  | none => ""
  | some s => s

/-- Python `a or b` on dynamic values. -/
def PyVal.pyOr (a b : PyVal) : PyVal :=
  if a.truthy then a else b

/-- A raw record: a column-name-to-value map; missing columns give `pnone`
(`dict.get`'s None, or a NaN cell). -/
def Row : Type := String → PyVal

/-- The all-fields-absent raw record. -/
def emptyRow : Row := fun _ => PyVal.pnone

/-- Substring containment on character lists (Python's `in` on strings). -/
def containsSub : List Char → List Char → Bool
  | _, [] => true
  | [], _ :: _ => false
  | c :: hay, needle =>
    List.isPrefixOf needle (c :: hay) || containsSub hay needle

/-- Python `needle in hay` for strings. -/
def strContains (hay needle : String) : Bool :=
  containsSub hay.data needle.data

/-- Python `any(word in text for word in words)`. -/
def containsAny (text : String) (words : List String) : Bool :=
  words.any (fun w => strContains text w)

/-- Python `str.split()` (split on whitespace runs, dropping empties). -/
def pySplitWs (s : String) : List String :=
  ((splitPredAux Char.isWhitespace s.data).map String.mk).filter (fun p => p ≠ "")

/-- `re.sub(r'\D', '', s)`: the decimal digits of a string, in order. -/
def digitsOnly (s : String) : List Char :=
  s.data.filter Char.isDigit

/-- `f"({d[:3]}) {d[3:6]}-{d[6:]}"` on a digit list. -/
def fmtPhone10 (ds : List Char) : String :=
  "(" ++ String.mk (ds.take 3) ++ ") " ++ String.mk ((ds.drop 3).take 3)
    ++ "-" ++ String.mk (ds.drop 6)

/-- `f"1-({d[1:4]}) {d[4:7]}-{d[7:]}"` on a digit list. -/
def fmtPhone11 (ds : List Char) : String :=
  "1-(" ++ String.mk ((ds.drop 1).take 3) ++ ") "
    ++ String.mk ((ds.drop 4).take 3) ++ "-" ++ String.mk (ds.drop 7)

/-- Modelled from the spec: the external Python `float(str)` conversion on
plain decimal strings (optional sign, digits, optional fractional part);
exotic forms (exponents, inf/nan) are outside the modelled domain. -/
def parseFloatString (s : String) : Option ℚ :=
  let t := pyStrip s
  let core :=
    if strStartsWith t "-" || strStartsWith t "+" then String.mk (t.data.drop 1) else t
  let sign : ℚ := if strStartsWith t "-" then -1 else 1
  match splitOnChar '.' core with
  | [ip] =>
    if allDigits ip.data then some (sign * (natOfDigits ip.data : ℚ)) else none
  | [ip, fp] =>
    if (ip.data.all Char.isDigit) && (fp.data.all Char.isDigit)
        && !(ip == "" && fp == "") then
      some (sign * ((natOfDigits ip.data * 10 ^ fp.length
        + natOfDigits fp.data : ℚ) / (10 ^ fp.length : ℚ)))
    else none
  | _ => none

/-- Python `float(value)` on a dynamic value (`None`/datetime raise, which
the call sites catch). -/
def pyFloat : PyVal → Option ℚ
  | PyVal.pfloat q => some q
  | PyVal.pint n => some (n : ℚ)
  | PyVal.pstr s => parseFloatString s
  | PyVal.pnone => none
  | PyVal.pdt _ => none

/-- The CanonicalDocument schema of the data model: every key of the output
dict literals that belongs to the shared schema (identity, location,
contact, licensing, classification flags, workflow placeholders).
Jurisdiction-specific provenance extras (e.g. Michigan's `_michigan_*`
keys, Ontario's `application_status`/`objectid`/`postal_code`) live in
per-jurisdiction wrapper structures below. -/
structure Doc where
  business_name : Option String
  license_number : Option String
  stateName : String
  city : Option String
  business_address : Option String
  contact_phone : Option String
  contact_email : Option String
  contact_website : Option String
  owner_name : Option String
  owner_email : Option String
  owner_role : Option String
  owner_phone : Option String
  owner_govt_issued_id : Option String
  operator_name : Option String
  issue_date : Option DateResult
  expiration_date : Option DateResult
  license_type : String
  license_status : Option String
  jurisdiction : String
  regulatory_body : String
  entity_type : List String
  filing_documents_url : Option String
  license_conditions : List String
  claimed : Bool
  claimedBy : Option String
  claimedAt : Option String
  canojaVerified : Bool
  adminVerificationRequired : Bool
  featured : Bool
  dba : Option String
  state_license_document : Option String
  utility_bill : Option String
  gps_validation : Bool
  location_type : String
  coordinates : List ℚ
  smoke_shop : Bool
deriving DecidableEq

/-- Colorado documents add a constant `googlePlaceId` key. -/
structure ColoradoDoc where
  core : Doc
  googlePlaceId : Option String
deriving DecidableEq

/-- Michigan documents add `googlePlaceId` and the `_michigan_*`
provenance keys. -/
structure MichiganDoc where
  core : Doc
  googlePlaceId : Option String
  michigan_record_number : Option String
  michigan_record_type : Option String
  michigan_notes : Option String
  michigan_disciplinary_action : Option String
  michigan_raw_status : Option String
deriving DecidableEq

/-- Ontario documents add `googlePlaceId`, the original application status,
the source object identifier and the extracted postal code. -/
structure OntarioDoc where
  core : Doc
  googlePlaceId : Option String
  application_status : Option String
  objectid : PyVal
  postal_code : Option String
deriving DecidableEq

/-- Jamaica documents preserve the original unmapped license-type string. -/
structure JamaicaDoc where
  core : Doc
  original_license_type : Option String
deriving DecidableEq

/-- Federal documents add authorized products, the registered-patients cell
and a constant source tag. -/
structure FederalDoc where
  core : Doc
  authorized_products : List String
  registered_patients_authorized : String
  source : String
deriving DecidableEq

/-- Saskatchewan documents add the permit number, a last-updated timestamp
and a constant data-source tag. -/
structure SaskDoc where
  core : Doc
  permit_number : Option String
  last_updated : Option DateResult
  data_source : String
deriving DecidableEq

namespace Alberta

/-- alberta.py `clean_string`: None/NaN and the empty string are absent;
otherwise `str(value).strip()`. -/
def clean_string (value : PyVal) : Option String :=
  if value.isna || value = PyVal.pstr "" then none
  else some (pyStrip value.pyStr)

/-- alberta.py `parse_date`: absent on NaN, otherwise `pd.to_datetime`
inside try/except, returning `isoformat()` or absent. -/
def parse_date (date_value : PyVal) : Option DateResult :=
  if date_value.isna then none
  else
    match date_value with
    | PyVal.pstr s => (pdToDatetime s).map (fun d => DateResult.isoStr d.isoformat)
    | PyVal.pdt d => some (DateResult.isoStr d.isoformat)
    | _ => none

/-- alberta.py `extract_postal_code` helper: `re.search` of the Canadian
postal pattern `[A-Z]\d[A-Z]\s?\d[A-Z]\d` (case-insensitive).  The optional
`\s?` is greedy: at each start the engine first tries to consume one
whitespace character, then retries without it; the leftmost match wins. -/
def postal_search : List Char → Option (List Char)
  | [] => none
  | c :: rest =>
    let cs := c :: rest
    match cs with
    | a :: d1 :: b :: tail =>
      if a.isAlpha && d1.isDigit && b.isAlpha then
        match tail with
        | w :: d2 :: e :: d3 :: _ =>
          if w.isWhitespace && d2.isDigit && e.isAlpha && d3.isDigit then
            some [a, d1, b, w, d2, e, d3]
          else if w.isDigit && d2.isAlpha && e.isDigit then
            some [a, d1, b, w, d2, e]
          else postal_search rest
        | w :: d2 :: e :: [] =>
          if w.isDigit && d2.isAlpha && e.isDigit then
            some [a, d1, b, w, d2, e]
          else postal_search rest
        | _ => postal_search rest
      else postal_search rest
    | _ => none

/-- alberta.py `extract_postal_code`: prefer a truthy explicit field whose
strip is non-empty (returned stripped); otherwise search the address and
return the match uppercased exactly as found. -/
def extract_postal_code (address : Option String) (site_postal : Option String) :
    Option String :=
  if truthyOpt site_postal && pyStrip (orEmpty site_postal) ≠ "" then
    some (pyStrip (orEmpty site_postal))
  else
    match address with
    | some a =>
      if a ≠ "" then
        (postal_search a.data).map (fun m => String.mk (m.map Char.toUpper))
      else none
    | none => none

/-- alberta.py `determine_license_type`: ordered keyword groups over the
lowercased establishment name; default 'other'. -/
def determine_license_type (establishment_name : Option String) : String :=
  if !truthyOpt establishment_name then "other"
  else
    let name := pyLower (orEmpty establishment_name)
    if containsAny name ["cultivation", "grow", "farm"] then "cultivation"
    else if containsAny name ["dispensary", "retail", "store"] then "retail"
    else if containsAny name ["processing", "extraction", "manufacturing"] then "processing"
    else if containsAny name ["distribution", "transport", "delivery"] then "distribution"
    else if containsAny name ["testing", "lab", "laboratory"] then "testing"
    else "other"

/-- alberta.py `is_smoke_shop`. -/
def is_smoke_shop (establishment_name : Option String) : Bool :=
  if !truthyOpt establishment_name then false
  else containsAny (pyLower (orEmpty establishment_name))
    ["smoke", "tobacco", "vape", "cigar"]

/-- alberta.py `parse_phone_number`: absent on falsy/NaN input; strip all
non-digits; 10 digits → `(XXX) XXX-XXXX`; 11 digits led by 1 →
`1-(XXX) XXX-XXXX`; otherwise the digit string when non-empty, else absent. -/
def parse_phone_number (phone : PyVal) : Option String :=
  if !phone.truthy || phone.isna then none
  else
    let ds := digitsOnly phone.pyStr
    if ds.length = 10 then some (fmtPhone10 ds)
    else if ds.length = 11 && ds.headD ' ' = '1' then some (fmtPhone11 ds)
    else if ds ≠ [] then some (String.mk ds) else none

/-- alberta.py `create_address_string`: street line, then the truthy ones
among city / 'Site' / postal joined by ", ". -/
def create_address_string (row : Row) : String :=
  let street := clean_string (row "Site Address Line 1")
  let address_parts := if truthyOpt street then [orEmpty street] else []
  let city := clean_string (row "Site City Name")
  let province := clean_string (row "Site")
  let postal := clean_string (row "Site Postal")
  let location_parts :=
    ([city, province, postal].filter truthyOpt).map orEmpty
  let address_parts :=
    if location_parts ≠ [] then
      address_parts ++ [joinSep ", " location_parts]
    else address_parts
  joinSep ", " address_parts

/-- alberta.py `transform_row_to_schema`. -/
def transform_row_to_schema (row : Row) : Doc :=
  let business_name := clean_string (row "Establishment Name")
  let license_number := clean_string (row "Authorization Number")
  let city := clean_string (row "Site City Name")
  let business_address := create_address_string row
  let phone := parse_phone_number (row "Telephone Number")
  let issue_date := parse_date (row "Initial Effective")
  let license_type := determine_license_type business_name
  let smoke_shop := is_smoke_shop business_name
  let manager_name := clean_string (row "Manager Name")
  { business_name := business_name
    license_number := license_number
    stateName := "Alberta"
    city := city
    business_address := some business_address
    contact_phone := phone
    contact_email := none
    contact_website := none
    owner_name := manager_name
    owner_email := none
    owner_role := if truthyOpt manager_name then some "Manager" else none
    owner_phone := phone
    owner_govt_issued_id := none
    operator_name := manager_name
    issue_date := issue_date
    expiration_date := none
    license_type := license_type
    license_status := some "Active"
    jurisdiction := "Alberta"
    regulatory_body := "Health Canada"
    entity_type := [license_type]
    filing_documents_url := none
    license_conditions := []
    claimed := false
    claimedBy := none
    claimedAt := none
    canojaVerified := true
    adminVerificationRequired := false
    featured := false
    dba := business_name
    state_license_document := none
    utility_bill := none
    gps_validation := false
    location_type := "Point"
    coordinates := []
    smoke_shop := smoke_shop }

end Alberta

namespace Colorado

/-- colorado.py `clean_string`: also treats case-insensitive
'none'/'null'/'n/a' as absent. -/
def clean_string (value : PyVal) : Option String :=
  if value.isna || value = PyVal.pstr ""
      || pyLower value.pyStr ∈ ["none", "null", "n/a"] then none
  else some (pyStrip value.pyStr)

/-- colorado.py `parse_date` (called on the cleaned 'Date Updated' value):
absent on NaN/falsy, else `pd.to_datetime(..., errors='coerce')`,
absent on NaT, else `isoformat()`. -/
def parse_date (date_value : Option String) : Option DateResult :=
  match date_value with
  | none => none
  | some s =>
    if s = "" then none
    else (pdToDatetime s).map (fun d => DateResult.isoStr d.isoformat)

/-- colorado.py `determine_license_type` over facility type and DBA
(both defaulted to '' when falsy, combined and lowercased). -/
def determine_license_type (facility_type : Option String) (dba : Option String) :
    String :=
  let ft := if truthyOpt facility_type then orEmpty facility_type else ""
  let db := if truthyOpt dba then orEmpty dba else ""
  let combined_text := pyLower (ft ++ " " ++ db)
  if strContains combined_text "cultivation" || strContains combined_text "cultivatio" then
    "cultivation"
  else if containsAny combined_text ["retail", "dispensary", "store"] then "retail"
  else if containsAny combined_text ["processing", "extraction", "manufacturing", "infusion"] then "processing"
  else if containsAny combined_text ["distribution", "transport", "delivery"] then "distribution"
  else if containsAny combined_text ["testing", "lab", "laboratory"] then "testing"
  else if strContains combined_text "medical marijuana" then "medical"
  else if strContains combined_text "optional premises" then "optional_premises"
  else "other"

/-- colorado.py `is_smoke_shop` over business name and DBA. -/
def is_smoke_shop (business_name : Option String) (dba : Option String) : Bool :=
  containsAny (pyLower (orEmpty business_name ++ " " ++ orEmpty dba))
    ["smoke", "tobacco", "vape", "cigar", "head shop"]

/-- colorado.py `parse_phone_number`: like Alberta's but digit strings of
fewer than 7 digits degrade to absent. -/
def parse_phone_number (phone : PyVal) : Option String :=
  if !phone.truthy || phone.isna then none
  else
    let ds := digitsOnly phone.pyStr
    if ds.isEmpty then none
    else if ds.length = 10 then some (fmtPhone10 ds)
    else if ds.length = 11 && ds.headD ' ' = '1' then some (fmtPhone11 ds)
    else if ds.length ≥ 7 then some (String.mk ds)
    else none

/-- colorado.py `create_full_address`: street, then city/ZIP; `None`
(absent) when no component exists. -/
def create_full_address (row : Row) : Option String :=
  let street := clean_string (row "Street")
  let address_parts := if truthyOpt street then [orEmpty street] else []
  let city := clean_string (row "City")
  let zip_code := clean_string (row "ZIP Code")
  let location_parts :=
    (if truthyOpt city then [orEmpty city] else [])
      ++ (if truthyOpt zip_code then [orEmpty zip_code] else [])
  let address_parts :=
    if location_parts ≠ [] then
      address_parts ++ [joinSep ", " location_parts]
    else address_parts
  if address_parts ≠ [] then some (joinSep ", " address_parts) else none

/-- colorado.py `get_license_status`: wall-clock dependent — 'Active' when
the record was updated within the last 90 days of `now`
(`pd.Timestamp.now()`), 'Unknown' when older, 'Active' when the update date
is absent or unparseable. -/
def get_license_status (date_updated : Option String) (now : PDateTime) : String :=
  if truthyOpt date_updated then
    match pdToDatetime (orEmpty date_updated) with
    | some update_date =>
      let days_since_update : Int :=
        (now.toOrdinal : Int) - (update_date.toOrdinal : Int)
      if days_since_update ≤ 90 then "Active" else "Unknown"
    | none => "Active"
  else "Active"

/-- colorado.py `transform_row_to_schema`; `now` is the ambient clock read
by `get_license_status`. -/
def transform_row_to_schema (now : PDateTime) (row : Row) : ColoradoDoc :=
  let license_number := clean_string (row "License Number")
  let facility_name := clean_string (row "Facility Name")
  let dba := clean_string (row "DBA")
  let facility_type := clean_string (row "Facility Type")
  let city := clean_string (row "City")
  let date_updated := clean_string (row "Date Updated")
  let business_name := pyOrOpt facility_name dba
  let business_address := create_full_address row
  let state_name := "Colorado"
  let license_type := determine_license_type facility_type dba
  let license_status := get_license_status date_updated now
  let smoke_shop := is_smoke_shop business_name dba
  let issue_date := parse_date date_updated
  { core :=
    { business_name := business_name
      license_number := license_number
      stateName := state_name
      city := city
      business_address := business_address
      contact_phone := none
      contact_email := none
      contact_website := none
      owner_name := none
      owner_email := none
      owner_role := none
      owner_phone := none
      owner_govt_issued_id := none
      operator_name := none
      issue_date := issue_date
      expiration_date := none
      license_type := license_type
      license_status := some license_status
      jurisdiction := state_name
      regulatory_body := "Colorado Department of Revenue"
      entity_type := [license_type]
      filing_documents_url := none
      license_conditions := []
      claimed := false
      claimedBy := none
      claimedAt := none
      canojaVerified := true
      adminVerificationRequired := false
      featured := false
      dba := dba
      state_license_document := none
      utility_bill := none
      gps_validation := false
      location_type := "Point"
      coordinates := []
      smoke_shop := smoke_shop }
    googlePlaceId := none }

end Colorado

namespace Michigan

/-- michigan.py `clean_string`: also treats case-insensitive
'none'/'null'/'n/a'/'nan' as absent. -/
def clean_string (value : PyVal) : Option String :=
  if value.isna || value = PyVal.pstr ""
      || pyLower value.pyStr ∈ ["none", "null", "n/a", "nan"] then none
  else some (pyStrip value.pyStr)

/-- michigan.py `parse_date`: absent on NaN/falsy; otherwise
`pd.to_datetime(..., errors='coerce')` and `to_pydatetime()` — the result
is a native datetime OBJECT, not an ISO string ("Return datetime object
instead of ISO string for MongoDB"). -/
def parse_date (date_value : Option String) : Option DateResult :=
  match date_value with
  | none => none
  | some s =>
    if s = "" then none
    else (pdToDatetime s).map (fun d => DateResult.pyDt d)

/-- michigan.py `determine_license_type`: ordered keyword groups over the
lowercased record type — the retailer group is checked FIRST, before the
grower/cultivation group; default 'other'. -/
def determine_license_type (record_type : Option String) : String :=
  if !truthyOpt record_type then "other"
  else
    let record_lower := pyLower (orEmpty record_type)
    if containsAny record_lower ["retailer", "retail"] then "retail"
    else if containsAny record_lower ["processor", "processing"] then "processing"
    else if containsAny record_lower ["grower", "cultivation"] then "cultivation"
    else if containsAny record_lower ["transporter", "transport"] then "distribution"
    else if containsAny record_lower ["testing", "lab"] then "testing"
    else if strContains record_lower "entity" then "entity"
    else if strContains record_lower "secure transport" then "transport"
    else "other"

/-- michigan.py `parse_license_status`. -/
def parse_license_status (status : Option String) : String :=
  if !truthyOpt status then "Unknown"
  else
    let status_lower := pyLower (orEmpty status)
    if strContains status_lower "active" then
      if strContains status_lower "prequalified" then "Prequalified" else "Active"
    else if strContains status_lower "inactive" then "Inactive"
    else if strContains status_lower "expired" then "Expired"
    else if strContains status_lower "pending" then "Pending"
    else if strContains status_lower "suspended" then "Suspended"
    else "Unknown"

/-- The lazy anchored regex `^(.+?)\s+MI\s+\d{5}` tail: one-or-more
whitespace, 'MI', one-or-more whitespace, five digits. -/
def mi_tail_match (cs : List Char) : Bool :=
  let sp := cs.takeWhile Char.isWhitespace
  let rest := cs.dropWhile Char.isWhitespace
  if sp.isEmpty then false
  else
    match rest with
    | 'M' :: 'I' :: rest2 =>
      let sp2 := rest2.takeWhile Char.isWhitespace
      let rest3 := rest2.dropWhile Char.isWhitespace
      !sp2.isEmpty && (rest3.take 5).length == 5 && (rest3.take 5).all Char.isDigit
    | _ => false

/-- The lazy group `(.+?)` of `^(.+?)\s+MI\s+\d{5}`: the shortest non-empty
prefix whose remainder matches the tail. -/
def mi_city_scan : List Char → List Char → Option (List Char)
  | _, [] => none
  | taken, c :: rest =>
    if mi_tail_match rest then some (taken ++ [c])
    else mi_city_scan (taken ++ [c]) rest

/-- michigan.py `parse_address`: returns (full_address, city); the city is
the regex group stripped, else a fallback split of the last comma part. -/
def parse_address (address_str : Option String) : Option String × Option String :=
  match address_str with
  | none => (none, none)
  | some a =>
    let parts := splitOnChar ',' a
    let city :=
      if parts.length ≥ 2 then
        let city_state_zip := pyStrip (parts.getLastD "")
        match mi_city_scan [] city_state_zip.data with
        | some g => some (pyStrip (String.mk g))
        | none =>
          let city_parts := pySplitWs city_state_zip
          if city_parts.length ≥ 2 then
            some (if city_parts.length > 2 then
              joinSep " " (city_parts.take (city_parts.length - 2))
            else city_parts.headD "")
          else none
      else none
    (some a, city)

/-- michigan.py `is_smoke_shop`. -/
def is_smoke_shop (business_name : Option String) : Bool :=
  if !truthyOpt business_name then false
  else containsAny (pyLower (orEmpty business_name))
    ["smoke", "tobacco", "vape", "cigar", "head shop"]

/-- michigan.py `transform_row_to_schema` (column aliases tried with
Python `or`). -/
def transform_row_to_schema (row : Row) : MichiganDoc :=
  let record_number := clean_string ((row "Record Number").pyOr (row "RecordNumber"))
  let record_type := clean_string ((row "Record Type").pyOr (row "RecordType"))
  let license_name := clean_string ((row "License Name").pyOr (row "LicenseName"))
  let address := clean_string (row "Address")
  let expiration_date := clean_string ((row "Expiration Date").pyOr (row "ExpirationDate"))
  let status := clean_string (row "Status")
  let notes := clean_string (row "Notes")
  let disciplinary_action :=
    clean_string ((row "Disciplinary Action").pyOr (row "DisciplinaryAction"))
  let address_info := parse_address address
  let license_type := determine_license_type record_type
  let license_status := parse_license_status status
  let smoke_shop := is_smoke_shop license_name
  let expiry_date := parse_date expiration_date
  { core :=
    { business_name := license_name
      license_number := record_number
      stateName := "Michigan"
      city := address_info.2
      business_address := address_info.1
      contact_phone := none
      contact_email := none
      contact_website := none
      owner_name := none
      owner_email := none
      owner_role := none
      owner_phone := none
      owner_govt_issued_id := none
      operator_name := none
      issue_date := none
      expiration_date := expiry_date
      license_type := license_type
      license_status := some license_status
      jurisdiction := "Michigan"
      regulatory_body := "Cannabis Regulatory Agency (CRA)"
      entity_type := [license_type]
      filing_documents_url := none
      license_conditions := []
      claimed := false
      claimedBy := none
      claimedAt := none
      canojaVerified := false
      adminVerificationRequired := false
      featured := false
      dba := none
      state_license_document := none
      utility_bill := none
      gps_validation := false
      location_type := "Point"
      coordinates := []
      smoke_shop := smoke_shop }
    googlePlaceId := none
    michigan_record_number := record_number
    michigan_record_type := record_type
    michigan_notes := notes
    michigan_disciplinary_action := disciplinary_action
    michigan_raw_status := status }

end Michigan

namespace BC

/-- bc.py `clean_string`: NaN, empty, or whitespace-only values are absent. -/
def clean_string (value : PyVal) : Option String :=
  if value.isna || value = PyVal.pstr "" || pyStrip value.pyStr = "" then none
  else some (pyStrip value.pyStr)

/-- bc.py `parse_phone_number` (identical logic to Alberta's). -/
def parse_phone_number (phone : PyVal) : Option String :=
  if !phone.truthy || phone.isna then none
  else
    let ds := digitsOnly phone.pyStr
    if ds.length = 10 then some (fmtPhone10 ds)
    else if ds.length = 11 && ds.headD ' ' = '1' then some (fmtPhone11 ds)
    else if ds ≠ [] then some (String.mk ds) else none

/-- bc.py `determine_license_type`: ordered keyword groups, default
'retail' (BC entries are retail cannabis stores). -/
def determine_license_type (establishment_name : Option String) : String :=
  if !truthyOpt establishment_name then "retail"
  else
    let name := pyLower (orEmpty establishment_name)
    if containsAny name ["cultivation", "grow", "farm", "grower"] then "cultivation"
    else if containsAny name ["processing", "extraction", "manufacturing", "processor"] then "processing"
    else if containsAny name ["distribution", "transport", "delivery", "distributor"] then "distribution"
    else if containsAny name ["testing", "lab", "laboratory"] then "testing"
    else "retail"

/-- bc.py `is_smoke_shop`: tobacco-adjacent keyword without 'cannabis'. -/
def is_smoke_shop (establishment_name : Option String) : Bool :=
  if !truthyOpt establishment_name then false
  else
    let name := pyLower (orEmpty establishment_name)
    containsAny name ["smoke", "tobacco", "cigar"] && !strContains name "cannabis"

/-- bc.py `extract_postal_code`: formats only the explicit postal field —
uppercased and space-inserted when exactly six characters. -/
def extract_postal_code (postal_value : PyVal) : Option String :=
  if !postal_value.truthy || postal_value.isna then none
  else
    let postal := ((pyStrip postal_value.pyStr).data.map Char.toUpper)
    if postal.length = 6 then
      some (String.mk (postal.take 3) ++ " " ++ String.mk (postal.drop 3))
    else if postal.length = 7 && postal.getD 3 ' ' = ' ' then
      some (String.mk postal)
    else if postal ≠ [] then some (String.mk postal) else none

/-- bc.py `create_full_address`: street then city/'BC'/postal; the 'BC'
constant makes the location part always non-empty. -/
def create_full_address (address city postal : Option String) : String :=
  let address_parts := if truthyOpt address then [pyStrip (orEmpty address)] else []
  let location_parts :=
    (if truthyOpt city then [pyStrip (orEmpty city)] else []) ++ ["BC"]
      ++ (if truthyOpt postal then [pyStrip (orEmpty postal)] else [])
  let address_parts := address_parts ++ [joinSep ", " location_parts]
  joinSep ", " address_parts

/-- bc.py `transform_row_to_schema`. -/
def transform_row_to_schema (row : Row) : Doc :=
  let license_number := clean_string (row "Licence")
  let establishment_name := clean_string (row "Establishment Name")
  let phone := parse_phone_number (row "Phone")
  let address := clean_string (row "Address")
  let city := clean_string (row "City")
  let postal := extract_postal_code (row "Postal")
  let status := clean_string (row "Status")
  let business_address := create_full_address address city postal
  let license_type := determine_license_type establishment_name
  let smoke_shop := is_smoke_shop establishment_name
  let license_status :=
    if truthyOpt status && pyLower (orEmpty status) = "open" then "Active"
    else "Inactive"
  { business_name := establishment_name
    license_number := license_number
    stateName := "British Columbia"
    city := city
    business_address := some business_address
    contact_phone := phone
    contact_email := none
    contact_website := none
    owner_name := none
    owner_email := none
    owner_role := none
    owner_phone := phone
    owner_govt_issued_id := none
    operator_name := none
    issue_date := none
    expiration_date := none
    license_type := license_type
    license_status := some license_status
    jurisdiction := "British Columbia"
    regulatory_body := "Liquor and Cannabis Regulation Branch"
    entity_type := [license_type]
    filing_documents_url := none
    license_conditions := []
    claimed := false
    claimedBy := none
    claimedAt := none
    canojaVerified := true
    adminVerificationRequired := false
    featured := false
    dba := establishment_name
    state_license_document := none
    utility_bill := none
    gps_validation := false
    location_type := "Point"
    coordinates := []
    smoke_shop := smoke_shop }

end BC

namespace Ontario

/-- ontario.py `clean_string`: None, empty, or a lowered form in
'none'/'null'/'n/a'/'nan'/'.' is absent. -/
def clean_string (value : PyVal) : Option String :=
  if value = PyVal.pnone || value = PyVal.pstr ""
      || pyLower value.pyStr ∈ ["none", "null", "n/a", "nan", "."] then none
  else some (pyStrip value.pyStr)

/-- ontario.py `parse_date` (called on the cleaned PublicNoticeDate):
falsy or a literal 'null'/'None'/'.' is absent; otherwise coerced parse,
`isoformat()` on success. -/
def parse_date (date_value : Option String) : Option DateResult :=
  match date_value with
  | none => none
  | some s =>
    if s = "" || s ∈ ["null", "None", "."] then none
    else (pdToDatetime s).map (fun d => DateResult.isoStr d.isoformat)

/-- ontario.py `determine_license_type`: ordered keyword groups, default
'retail' (Ontario cannabis stores). -/
def determine_license_type (premises_name : Option String) : String :=
  if !truthyOpt premises_name then "retail"
  else
    let name_lower := pyLower (orEmpty premises_name)
    if containsAny name_lower ["cultivation", "cultivator", "grow", "farm"] then "cultivation"
    else if containsAny name_lower ["processing", "processor", "extraction", "manufacturing"] then "processing"
    else if containsAny name_lower ["distribution", "distributor", "transport", "delivery"] then "distribution"
    else if containsAny name_lower ["testing", "lab", "laboratory"] then "testing"
    else "retail"

/-- ontario.py `is_smoke_shop`. -/
def is_smoke_shop (business_name : Option String) : Bool :=
  if !truthyOpt business_name then false
  else containsAny (pyLower (orEmpty business_name))
    ["smoke", "tobacco", "vape", "cigar", "head shop"]

/-- ontario.py `get_license_status`: maps the application status; default
'Active'. -/
def get_license_status (application_status : Option String) : String :=
  if !truthyOpt application_status then "Active"
  else
    let status_lower := pyLower (orEmpty application_status)
    if strContains status_lower "authorized to open" then "Active"
    else if strContains status_lower "pending" then "Pending"
    else if strContains status_lower "denied" || strContains status_lower "rejected" then "Denied"
    else if strContains status_lower "suspended" then "Suspended"
    else "Active"

/-- ontario.py `transform_record_to_schema`, lines 162-171: coordinates
come from the Longitude/Latitude attributes when both are truthy and both
convert with `float(...)`; any conversion failure degrades to `[]`. -/
def attr_coordinates (longitude latitude : PyVal) : List ℚ :=
  if longitude.truthy && latitude.truthy then
    match pyFloat longitude, pyFloat latitude with
    | some x, some y => [x, y]
    | _, _ => []
  else []

/-- ontario.py `transform_record_to_schema` over the record's `attributes`
map (the `geometry` sub-map is not consulted for the output document). -/
def transform_record_to_schema (attributes : Row) : OntarioDoc :=
  let premises_name := clean_string (attributes "PremisesName")
  let street_address := clean_string (attributes "StreetAddress")
  let city := clean_string (attributes "City")
  let province := clean_string (attributes "Province")
  let postal_code := clean_string (attributes "PostalCode")
  let application_status := clean_string (attributes "ApplicationStatus")
  let website := clean_string (attributes "Website")
  let public_notice_date := clean_string (attributes "PublicNoticeDate")
  let address_parts := if truthyOpt street_address then [orEmpty street_address] else []
  let location_parts :=
    (if truthyOpt city then [orEmpty city] else [])
      ++ (if truthyOpt province then [orEmpty province] else [])
      ++ (if truthyOpt postal_code then [orEmpty postal_code] else [])
  let address_parts :=
    if location_parts ≠ [] then address_parts ++ [joinSep ", " location_parts]
    else address_parts
  let business_address :=
    if address_parts ≠ [] then some (joinSep ", " address_parts) else none
  let coordinates := attr_coordinates (attributes "Longitude") (attributes "Latitude")
  let license_type := determine_license_type premises_name
  let license_status := get_license_status application_status
  let smoke_shop := is_smoke_shop premises_name
  let issue_date :=
    if truthyOpt public_notice_date && public_notice_date ≠ some "." then
      parse_date public_notice_date
    else none
  { core :=
    { business_name := premises_name
      license_number := none
      stateName := "Ontario"
      city := city
      business_address := business_address
      contact_phone := none
      contact_email := none
      contact_website := website
      owner_name := none
      owner_email := none
      owner_role := none
      owner_phone := none
      owner_govt_issued_id := none
      operator_name := none
      issue_date := issue_date
      expiration_date := none
      license_type := license_type
      license_status := some license_status
      jurisdiction := "Ontario"
      regulatory_body := "Alcohol and Gaming Commission of Ontario (AGCO)"
      entity_type := [license_type]
      filing_documents_url := clean_string (attributes "URLLink")
      license_conditions := []
      claimed := false
      claimedBy := none
      claimedAt := none
      canojaVerified := true
      adminVerificationRequired := false
      featured := false
      dba := none
      state_license_document := none
      utility_bill := none
      gps_validation := !coordinates.isEmpty
      location_type := "Point"
      coordinates := coordinates
      smoke_shop := smoke_shop }
    googlePlaceId := none
    application_status := application_status
    objectid := attributes "OBJECTID"
    postal_code := postal_code }

end Ontario

namespace Federal

/-- federal.py `parse_license_types`: accumulates processing/cultivation
(micro- variants first) and retail ('sale'); `['other']` when nothing
matched. -/
def parse_license_types (license_cell_text : String) : List String :=
  if license_cell_text = "" then []
  else
    let text := pyLower license_cell_text
    let license_types :=
      (if strContains text "micro-processing" then ["micro-processing"]
       else if strContains text "processing" then ["processing"] else [])
      ++ (if strContains text "micro-cultivation" then ["micro-cultivation"]
          else if strContains text "cultivation" then ["cultivation"] else [])
      ++ (if strContains text "sale" then ["retail"] else [])
    if license_types ≠ [] then license_types else ["other"]

/-- federal.py `parse_authorized_products`. -/
def parse_authorized_products (products_text : String) : List String :=
  if products_text = "" then []
  else
    let text := pyLower products_text
    (if strContains text "plants" || strContains text "seeds" then ["plants_seeds"] else [])
    ++ (if strContains text "dried" || strContains text "fresh" then ["dried_fresh"] else [])
    ++ (if strContains text "extracts" then ["extracts"] else [])
    ++ (if strContains text "edible" then ["edibles"] else [])
    ++ (if strContains text "topical" then ["topicals"] else [])

/-- federal.py `clean_phone_number`: like Alberta's formatter but its
absent sentinels are falsy input or literal 'n/a'/'none'. -/
def clean_phone_number (phone : String) : Option String :=
  if phone = "" || pyLower phone ∈ ["n/a", "none"] then none
  else
    let ds := digitsOnly phone
    if ds.length = 10 then some (fmtPhone10 ds)
    else if ds.length = 11 && ds.headD ' ' = '1' then some (fmtPhone11 ds)
    else if ds ≠ [] then some (String.mk ds) else none

/-- federal.py `parse_date`: only a full `YYYY-MM-DD` string is accepted
(the `re.match` prefix gate plus `strptime('%Y-%m-%d')`, which rejects
trailing characters and invalid civil dates); everything else is absent. -/
def parse_date (date_str : String) : Option DateResult :=
  if date_str = "" || pyLower date_str ∈ ["n/a", "none"] then none
  else
    match date_str.data with
    | [y1, y2, y3, y4, h1, m1, m2, h2, d1, d2] =>
      if [y1, y2, y3, y4].all Char.isDigit && h1 = '-'
          && [m1, m2].all Char.isDigit && h2 = '-'
          && [d1, d2].all Char.isDigit then
        let y := natOfDigits [y1, y2, y3, y4]
        let m := natOfDigits [m1, m2]
        let d := natOfDigits [d1, d2]
        if validDate y m d then some (DateResult.isoStr (PDateTime.isoformat ⟨y, m, d⟩))
        else none
      else none
    | _ => none

/-- federal.py `determine_license_status`: 'Revoked' on the keyword,
'Unknown' when empty, else 'Active'. -/
def determine_license_status (license_text : String) : String :=
  if license_text = "" then "Unknown"
  else if strContains (pyLower license_text) "revoked" then "Revoked"
  else "Active"

/-- federal.py `scrape_table_data` row body: builds one document from the
stripped cell texts of a table row (cells beyond the row's length read as
empty strings). -/
def transform_cells (cells : List String) : FederalDoc :=
  let license_holder := cells.getD 0 ""
  let province := cells.getD 1 ""
  let licenses := cells.getD 2 ""
  let authorized_products := cells.getD 3 ""
  let registered_patients := cells.getD 4 ""
  let client_care_phone := cells.getD 5 ""
  let initial_license_date := cells.getD 6 ""
  let license_types := parse_license_types licenses
  let products := parse_authorized_products authorized_products
  let phone := clean_phone_number client_care_phone
  let issue_date := parse_date initial_license_date
  let license_status := determine_license_status licenses
  { core :=
    { business_name := some license_holder
      license_number := none
      stateName := "Federal"
      city := none
      business_address := none
      contact_phone := phone
      contact_email := none
      contact_website := none
      owner_name := none
      owner_email := none
      owner_role := none
      owner_phone := phone
      owner_govt_issued_id := none
      operator_name := some license_holder
      issue_date := issue_date
      expiration_date := none
      license_type := license_types.headD "other"
      license_status := some license_status
      jurisdiction := province
      regulatory_body := "Health Canada"
      entity_type := license_types
      filing_documents_url := none
      license_conditions := []
      claimed := false
      claimedBy := none
      claimedAt := none
      canojaVerified := true
      adminVerificationRequired := false
      featured := false
      dba := some license_holder
      state_license_document := none
      utility_bill := none
      gps_validation := false
      location_type := "Point"
      coordinates := []
      smoke_shop := false }
    authorized_products := products
    registered_patients_authorized := registered_patients
    source := "Health Canada Official Registry" }

end Federal

namespace Jamaica

/-- jamaica_cla.py `clean_string`: falsy or NaN is absent, else stripped. -/
def clean_string (value : PyVal) : Option String :=
  if !value.truthy || value.isna then none
  else some (pyStrip value.pyStr)

/-- jamaica_cla.py `parse_date`: falsy/NaN absent, else coerced parse and
`isoformat()`. -/
def parse_date (date_str : Option String) : Option DateResult :=
  match date_str with
  | none => none
  | some s =>
    if s = "" then none
    else (pdToDatetime s).map (fun d => DateResult.isoStr d.isoformat)

/-- jamaica_cla.py `determine_license_type`: Jamaica-specific keyword
mapping with default 'retail'. -/
def determine_license_type (license_type_str : Option String) : String :=
  if !truthyOpt license_type_str then "other"
  else
    let lt := pyLower (orEmpty license_type_str)
    if strContains lt "retail" && strContains lt "therapeutic" then "retail"
    else if strContains lt "retail" && strContains lt "herb house" then "retail"
    else if strContains lt "processing" then "processing"
    else if strContains lt "cultivator" || strContains lt "cultivation" then "cultivation"
    else if strContains lt "transport" then "distribution"
    else "retail"

/-- The parish list of jamaica_cla.py `extract_city_from_address`. -/
def parishes : List String :=
  ["Kingston", "St. Andrew", "Saint Andrew", "St Andrew",
   "St. Catherine", "Saint Catherine", "St Catherine",
   "Clarendon", "Manchester", "Westmoreland", "St. James",
   "Saint James", "St James", "Hanover", "Trelawny",
   "St. Ann", "Saint Ann", "St Ann", "St. Mary", "Saint Mary", "St Mary",
   "Portland", "St. Thomas", "Saint Thomas", "St Thomas"]

/-- jamaica_cla.py `extract_city_from_address`: the first parish found in
the lowercased address; then a P.O.-based comma-part fallback. -/
def extract_city_from_address (address : Option String) : Option String :=
  if !truthyOpt address then none
  else
    let a := orEmpty address
    let address_lower := pyLower a
    match parishes.find? (fun p => strContains address_lower (pyLower p)) with
    | some parish => some parish
    | none =>
      if strContains address_lower "p.o." then
        ((splitOnChar ',' a).map pyStrip).find?
          (fun part => parishes.any (fun p => strContains (pyLower part) (pyLower p)))
      else none

/-- jamaica_cla.py `scrape_table_data` row body: one document from the
first four cell texts of a table row. -/
def transform_cells (cells : List String) : JamaicaDoc :=
  let licensee := clean_string (PyVal.pstr (cells.getD 0 ""))
  let license_type := clean_string (PyVal.pstr (cells.getD 1 ""))
  let business_address := clean_string (PyVal.pstr (cells.getD 2 ""))
  let expiry_date := clean_string (PyVal.pstr (cells.getD 3 ""))
  let city := extract_city_from_address business_address
  let mapped_license_type := determine_license_type license_type
  let parsed_expiry := parse_date expiry_date
  { core :=
    { business_name := licensee
      license_number := none
      stateName := "Jamaica"
      city := city
      business_address := business_address
      contact_phone := none
      contact_email := none
      contact_website := none
      owner_name := licensee
      owner_email := none
      owner_role := some "Owner"
      owner_phone := none
      owner_govt_issued_id := none
      operator_name := licensee
      issue_date := none
      expiration_date := parsed_expiry
      license_type := mapped_license_type
      license_status := some "Active"
      jurisdiction := "Jamaica"
      regulatory_body := "Cannabis Licensing Authority (CLA)"
      entity_type := [mapped_license_type]
      filing_documents_url := none
      license_conditions := []
      claimed := false
      claimedBy := none
      claimedAt := none
      canojaVerified := true
      adminVerificationRequired := false
      featured := false
      dba := licensee
      state_license_document := none
      utility_bill := none
      gps_validation := false
      location_type := "Point"
      coordinates := []
      smoke_shop := false }
    original_license_type := license_type }

end Jamaica

namespace Sask

/-- saskatchewan.py `clean_string` (same rule as Alberta's). -/
def clean_string (value : PyVal) : Option String :=
  if value.isna || value = PyVal.pstr "" then none
  else some (pyStrip value.pyStr)

/-- saskatchewan.py `parse_date` (same rule as Alberta's). -/
def parse_date (date_value : PyVal) : Option DateResult :=
  if date_value.isna then none
  else
    match date_value with
    | PyVal.pstr s => (pdToDatetime s).map (fun d => DateResult.isoStr d.isoformat)
    | PyVal.pdt d => some (DateResult.isoStr d.isoformat)
    | _ => none

/-- saskatchewan.py `determine_license_type_from_name`: every branch is
'retail' (SLGA entries are retail outlets). -/
def determine_license_type_from_name (operating_name : Option String) : String :=
  if !truthyOpt operating_name then "retail"
  else
    let name := pyLower (orEmpty operating_name)
    if containsAny name ["dispensary", "cannabis", "weed", "shop", "store"] then "retail"
    else if strContains name "smoke" then "retail"
    else "retail"

/-- saskatchewan.py `is_smoke_shop`. -/
def is_smoke_shop (operating_name : Option String) : Bool :=
  if !truthyOpt operating_name then false
  else containsAny (pyLower (orEmpty operating_name))
    ["smoke", "tobacco", "vape", "cigar"]

/-- saskatchewan.py `create_full_address`: street and city (stripped),
with 'Saskatchewan, Canada' appended whenever any part exists. -/
def create_full_address (street_address city : Option String) : String :=
  let address_parts :=
    (if truthyOpt street_address && pyStrip (orEmpty street_address) ≠ "" then
      [pyStrip (orEmpty street_address)] else [])
    ++ (if truthyOpt city && pyStrip (orEmpty city) ≠ "" then
      [pyStrip (orEmpty city)] else [])
  let address_parts :=
    if address_parts ≠ [] then address_parts ++ ["Saskatchewan", "Canada"]
    else address_parts
  joinSep ", " address_parts

/-- saskatchewan.py `clean_website_url`: falsy / 'n/a' / 'none' absent,
else stripped with 'https://' prepended when no scheme is present. -/
def clean_website_url (website : PyVal) : Option String :=
  if !website.truthy || website.isna
      || pyLower website.pyStr ∈ ["n/a", "none", ""] then none
  else
    let w := pyStrip website.pyStr
    if w ≠ "" && !(strStartsWith w "http://" || strStartsWith w "https://") then
      some ("https://" ++ w)
    else some w

/-- saskatchewan.py `extract_phone_from_website_or_name`: a placeholder
that always returns absent. -/
def extract_phone_from_website_or_name (_website : Option String)
    (_business_name : Option String) : Option String :=
  none

/-- saskatchewan.py `transform_row_to_schema`. -/
def transform_row_to_schema (row : Row) : SaskDoc :=
  let permit_number := clean_string (row "Permit Number")
  let status := clean_string (row "Status")
  let city := clean_string (row "City")
  let operating_name := clean_string (row "Operating Name")
  let street_address := clean_string (row "Street Address")
  let website := clean_website_url (row "Website")
  let last_updated := parse_date (row "Last Updated")
  let business_address := create_full_address street_address city
  let license_type := determine_license_type_from_name operating_name
  let smoke_shop := is_smoke_shop operating_name
  let phone := extract_phone_from_website_or_name website operating_name
  { core :=
    { business_name := operating_name
      license_number := permit_number
      stateName := "Saskatchewan"
      city := city
      business_address := some business_address
      contact_phone := phone
      contact_email := none
      contact_website := website
      owner_name := none
      owner_email := none
      owner_role := none
      owner_phone := phone
      owner_govt_issued_id := none
      operator_name := operating_name
      issue_date := none
      expiration_date := none
      license_type := license_type
      license_status := status
      jurisdiction := "Saskatchewan"
      regulatory_body := "Saskatchewan Liquor and Gaming Authority (SLGA)"
      entity_type := [license_type]
      filing_documents_url := none
      license_conditions := []
      claimed := false
      claimedBy := none
      claimedAt := none
      canojaVerified := true
      adminVerificationRequired := false
      featured := false
      dba := operating_name
      state_license_document := none
      utility_bill := none
      gps_validation := false
      location_type := "Point"
      coordinates := []
      smoke_shop := smoke_shop }
    permit_number := permit_number
    last_updated := last_updated
    data_source := "SLGA Cannabis Retailers Registry" }

end Sask

/-- The per-record loop shared by the ungated drivers (alberta.py, bc.py,
saskatchewan.py `scrape_all_data`): each record's transform runs inside
try/except — an exception is logged and the loop continues; a successful
document is appended unconditionally.  The transform is abstracted as a
fallible step since Python exceptions can arise inside it. -/
def scrape_loop {ρ δ ε : Type} (tf : ρ → Except ε δ) : List ρ → List δ
  | [] => []
  | r :: rs =>
    match tf r with
    | Except.error _ => scrape_loop tf rs
    | Except.ok d => d :: scrape_loop tf rs

/-- The per-record loop of the gated drivers (colorado.py, michigan.py,
ontario.py): like `scrape_loop`, but a successful document is appended
only when the jurisdiction's completeness gate holds, else it is skipped
with a logged reason. -/
def scrape_loop_gated {ρ δ ε : Type} (tf : ρ → Except ε δ) (gate : δ → Bool) :
    List ρ → List δ
  | [] => []
  | r :: rs =>
    match tf r with
    | Except.error _ => scrape_loop_gated tf gate rs
    | Except.ok d =>
      if gate d then d :: scrape_loop_gated tf gate rs
      else scrape_loop_gated tf gate rs

/-- alberta.py `scrape_all_data`: no completeness gate — every
successfully transformed document is appended. -/
def Alberta.scrape_all_data (rows : List Row) : List Doc :=
  scrape_loop (fun r => (Except.ok (Alberta.transform_row_to_schema r) : Except String Doc)) rows

/-- bc.py `scrape_all_data`: no completeness gate. -/
def BC.scrape_all_data (rows : List Row) : List Doc :=
  scrape_loop (fun r => (Except.ok (BC.transform_row_to_schema r) : Except String Doc)) rows

/-- saskatchewan.py `scrape_all_data`: no completeness gate. -/
def Sask.scrape_all_data (rows : List Row) : List SaskDoc :=
  scrape_loop (fun r => (Except.ok (Sask.transform_row_to_schema r) : Except String SaskDoc)) rows

/-- colorado.py `scrape_all_data` gate: `document['business_name'] and
document['license_number']` (Python truthiness). -/
def Colorado.gate (d : ColoradoDoc) : Bool :=
  truthyOpt d.core.business_name && truthyOpt d.core.license_number

/-- colorado.py `scrape_all_data`: append only documents passing the
essential-data gate. -/
def Colorado.scrape_all_data (now : PDateTime) (rows : List Row) : List ColoradoDoc :=
  scrape_loop_gated
    (fun r => (Except.ok (Colorado.transform_row_to_schema now r) : Except String ColoradoDoc))
    Colorado.gate rows

/-- michigan.py `process_all_data` gate: business_name and license_number. -/
def Michigan.gate (d : MichiganDoc) : Bool :=
  truthyOpt d.core.business_name && truthyOpt d.core.license_number

/-- michigan.py `process_all_data`. -/
def Michigan.process_all_data (rows : List Row) : List MichiganDoc :=
  scrape_loop_gated
    (fun r => (Except.ok (Michigan.transform_row_to_schema r) : Except String MichiganDoc))
    Michigan.gate rows

/-- ontario.py `scrape_all_data` gate: business_name only. -/
def Ontario.gate (d : OntarioDoc) : Bool :=
  truthyOpt d.core.business_name

/-- ontario.py `scrape_all_data`. -/
def Ontario.scrape_all_data (records : List Row) : List OntarioDoc :=
  scrape_loop_gated
    (fun r => (Except.ok (Ontario.transform_record_to_schema r) : Except String OntarioDoc))
    Ontario.gate records

/-- federal.py `scrape_table_data` loop: rows with fewer than 4 cells are
skipped; every other row's document is appended (no completeness gate). -/
def Federal.scrape_table_data (rows : List (List String)) : List FederalDoc :=
  scrape_loop
    (fun cells =>
      (if cells.length < 4 then Except.error "skipped"
       else Except.ok (Federal.transform_cells cells) : Except String FederalDoc))
    rows

/-- jamaica_cla.py `scrape_table_data`: rows with at least 4 cells produce
documents, appended without a completeness gate. -/
def Jamaica.scrape_table_data (rows : List (List String)) : List JamaicaDoc :=
  scrape_loop
    (fun cells =>
      (if 4 ≤ cells.length then Except.ok (Jamaica.transform_cells cells)
       else Except.error "skipped" : Except String JamaicaDoc))
    rows

/-- One fetched page of the Jamaica CLA site: its parsed table rows (cell
texts) and whether a next-page link was found. -/
structure JPage where
  rows : List (List String)
  hasNext : Bool

/-- jamaica_cla.py `scrape_all_pages` loop body, with the network modelled
by `web : page number → fetch result` (`none` = failed fetch).  Returns the
accumulated documents together with the list of page numbers fetched.  The
loop stops on a failed fetch, a page with zero parsed licenses, a missing
next-page link, or when the incremented page counter exceeds 50. -/
def Jamaica.scrape_pages_from (web : Nat → Option JPage) (page_num : Nat) :
    List JamaicaDoc × List Nat :=
  match web page_num with
  | none => ([], [page_num])
  | some pg =>
    let page_licenses := Jamaica.scrape_table_data pg.rows
    if page_licenses.isEmpty then ([], [page_num])
    else if !pg.hasNext then (page_licenses, [page_num])
    else if h : page_num + 1 > 50 then (page_licenses, [page_num])
    else
      let rest := Jamaica.scrape_pages_from web (page_num + 1)
      (page_licenses ++ rest.1, page_num :: rest.2)
termination_by 51 - page_num
decreasing_by
  simp at h
  omega

/-- jamaica_cla.py `scrape_all_pages`: the traversal starts at page 1. -/
def Jamaica.scrape_all_pages (web : Nat → Option JPage) : List JamaicaDoc :=
  (Jamaica.scrape_pages_from web 1).1

/-- The pages fetched by a `scrape_all_pages` run. -/
def Jamaica.visited_pages (web : Nat → Option JPage) : List Nat :=
  (Jamaica.scrape_pages_from web 1).2

/-- Modelled from the spec (§4.1 `parse_phone`), for refinement comparison
with the per-jurisdiction parsers: strip all non-digit characters; exactly
10 digits format as `(XXX) XXX-XXXX`; 11 digits with a leading country
code 1 format as `1-(XXX) XXX-XXXX`; otherwise return the raw digit string
when the jurisdiction-specific minimum length is met, else absent. -/
def parse_phone_spec (min_len : Nat) (value : String) : Option String :=
  let digits := value.data.filter Char.isDigit
  if digits.length = 10 then
    some ("(" ++ String.mk (digits.take 3) ++ ") "
      ++ String.mk ((digits.drop 3).take 3) ++ "-" ++ String.mk (digits.drop 6))
  else if digits.length = 11 && digits.headD ' ' = '1' then
    some ("1-(" ++ String.mk ((digits.drop 1).take 3) ++ ") "
      ++ String.mk ((digits.drop 4).take 3) ++ "-" ++ String.mk (digits.drop 7))
  else if min_len ≤ digits.length then some (String.mk digits)
  else none

/-- A concrete Colorado row whose only populated column is 'Date Updated'
(used to exhibit the wall-clock dependence of the Colorado transform). -/
def coloradoClockRow : Row :=
  fun k => if k = "Date Updated" then PyVal.pstr "2024-01-01" else PyVal.pnone

/-- One page of the concrete Jamaica site model: a single four-cell
license row, with a next-page link present. -/
def jamSitePage : JPage :=
  ⟨[["Biz", "Retail (Herb House)", "Addr, Kingston", "2025-01-12"]], true⟩

/-- A concrete three-page Jamaica site model: pages 1 and 2 carry one
license row each and advertise a next page; fetching page 3 fails. -/
def jamSite : Nat → Option JPage :=
  fun n => if n ≤ 2 then some jamSitePage else none

/-- A concrete Ontario attribute map carrying integral coordinates. -/
def ontarioCoordRow : Row :=
  fun k =>
    if k = "PremisesName" then PyVal.pstr "Green Leaf"
    else if k = "Longitude" then PyVal.pint (-79)
    else if k = "Latitude" then PyVal.pint 43
    else PyVal.pnone

/-- The ungated per-record loop maps a total transform over the batch. -/
theorem scrape_loop_ok_map {ρ δ : Type} (f : ρ → δ) (rows : List ρ) :
    scrape_loop (fun r => (Except.ok (f r) : Except String δ)) rows = rows.map f := by
  induction rows with
  | nil => rfl
  | cons r rs ih => simp [scrape_loop, ih]

/-- The gated per-record loop is a filter of the mapped batch. -/
theorem scrape_loop_gated_ok_filter {ρ δ : Type} (f : ρ → δ) (gate : δ → Bool)
    (rows : List ρ) :
    scrape_loop_gated (fun r => (Except.ok (f r) : Except String δ)) gate rows
      = (rows.map f).filter gate := by
  induction rows with
  | nil => rfl
  | cons r rs ih =>
    simp only [scrape_loop_gated, List.map, List.filter, ih]
    cases gate (f r) <;> simp

/-- The Federal table loop transforms exactly the rows with at least four
cells. -/
theorem federal_table_eq (rows : List (List String)) :
    Federal.scrape_table_data rows
      = ((rows.filter (fun c => decide (4 ≤ c.length))).map Federal.transform_cells) := by
  induction rows with
  | nil => rfl
  | cons c cs ih =>
    simp only [Federal.scrape_table_data, scrape_loop, List.filter] at *
    by_cases h : c.length < 4
    · have h4 : ¬ (4 ≤ c.length) := by omega
      simp [h, h4, ih]
    · have h4 : 4 ≤ c.length := by omega
      simp [h, h4, ih]

/-- The Jamaica table loop transforms exactly the rows with at least four
cells. -/
theorem jamaica_table_eq (rows : List (List String)) :
    Jamaica.scrape_table_data rows
      = ((rows.filter (fun c => decide (4 ≤ c.length))).map Jamaica.transform_cells) := by
  induction rows with
  | nil => rfl
  | cons c cs ih =>
    simp only [Jamaica.scrape_table_data, scrape_loop, List.filter] at *
    by_cases h : 4 ≤ c.length
    · simp [h, ih]
    · simp [h, ih]

/-- C1 counterexample: the Alberta driver applies no minimum-completeness
check — a transformed document with an absent business_name is still
appended to the output batch, contradicting the claim that every
jurisdiction's batch run gates on a non-absent business_name. -/
theorem alberta_driver_keeps_nameless_document :
    Alberta.scrape_all_data [emptyRow] = [Alberta.transform_row_to_schema emptyRow]
    ∧ (Alberta.transform_row_to_schema emptyRow).business_name = none :=
  ⟨rfl, rfl⟩

/-- C1 (amended): Colorado and Michigan append a successfully transformed
document only when both business_name and license_number are truthy, and
Ontario only when business_name is truthy; Alberta, British Columbia and
Saskatchewan apply no completeness gate and append every successfully
transformed document, and the Federal and Jamaica table loops likewise
append every document built from a row with at least four cells. -/
theorem completeness_gates_per_jurisdiction (now : PDateTime) (rows : List Row)
    (cellRows : List (List String)) :
    Colorado.scrape_all_data now rows
        = ((rows.map (Colorado.transform_row_to_schema now)).filter Colorado.gate)
    ∧ Michigan.process_all_data rows
        = ((rows.map Michigan.transform_row_to_schema).filter Michigan.gate)
    ∧ Ontario.scrape_all_data rows
        = ((rows.map Ontario.transform_record_to_schema).filter Ontario.gate)
    ∧ Alberta.scrape_all_data rows = rows.map Alberta.transform_row_to_schema
    ∧ BC.scrape_all_data rows = rows.map BC.transform_row_to_schema
    ∧ Sask.scrape_all_data rows = rows.map Sask.transform_row_to_schema
    ∧ Federal.scrape_table_data cellRows
        = ((cellRows.filter (fun c => decide (4 ≤ c.length))).map Federal.transform_cells)
    ∧ Jamaica.scrape_table_data cellRows
        = ((cellRows.filter (fun c => decide (4 ≤ c.length))).map Jamaica.transform_cells) :=
  ⟨scrape_loop_gated_ok_filter _ _ _, scrape_loop_gated_ok_filter _ _ _,
   scrape_loop_gated_ok_filter _ _ _, scrape_loop_ok_map _ _, scrape_loop_ok_map _ _,
   scrape_loop_ok_map _ _, federal_table_eq _, jamaica_table_eq _⟩

/-- C2: every transform yields a structurally complete CanonicalDocument.
Fields the source format never supplies are the documented absent sentinel
for every input row (a selection is proved for the cited Alberta and
Michigan transforms), and the all-fields-absent record transforms to the
fully sentinel-valued document with every schema key present — in the
embedding the `Doc` structure carries all schema keys of the data model,
so the two concrete equalities exhibit each key's sentinel value. -/
theorem transform_structurally_complete (row : Row) :
    (Alberta.transform_row_to_schema row).contact_email = none
    ∧ (Alberta.transform_row_to_schema row).contact_website = none
    ∧ (Alberta.transform_row_to_schema row).owner_email = none
    ∧ (Alberta.transform_row_to_schema row).owner_govt_issued_id = none
    ∧ (Alberta.transform_row_to_schema row).expiration_date = none
    ∧ (Alberta.transform_row_to_schema row).license_conditions = []
    ∧ (Alberta.transform_row_to_schema row).coordinates = []
    ∧ (Michigan.transform_row_to_schema row).core.contact_phone = none
    ∧ (Michigan.transform_row_to_schema row).core.operator_name = none
    ∧ (Michigan.transform_row_to_schema row).core.issue_date = none
    ∧ (Michigan.transform_row_to_schema row).core.dba = none
    ∧ (Michigan.transform_row_to_schema row).core.coordinates = []
    ∧ Alberta.transform_row_to_schema emptyRow =
      { business_name := none, license_number := none, stateName := "Alberta",
        city := none, business_address := some "", contact_phone := none,
        contact_email := none, contact_website := none, owner_name := none,
        owner_email := none, owner_role := none, owner_phone := none,
        owner_govt_issued_id := none, operator_name := none, issue_date := none,
        expiration_date := none, license_type := "other",
        license_status := some "Active", jurisdiction := "Alberta",
        regulatory_body := "Health Canada", entity_type := ["other"],
        filing_documents_url := none, license_conditions := [], claimed := false,
        claimedBy := none, claimedAt := none, canojaVerified := true,
        adminVerificationRequired := false, featured := false, dba := none,
        state_license_document := none, utility_bill := none,
        gps_validation := false, location_type := "Point", coordinates := [],
        smoke_shop := false }
    ∧ Michigan.transform_row_to_schema emptyRow =
      { core :=
        { business_name := none, license_number := none, stateName := "Michigan",
          city := none, business_address := none, contact_phone := none,
          contact_email := none, contact_website := none, owner_name := none,
          owner_email := none, owner_role := none, owner_phone := none,
          owner_govt_issued_id := none, operator_name := none, issue_date := none,
          expiration_date := none, license_type := "other",
          license_status := some "Unknown", jurisdiction := "Michigan",
          regulatory_body := "Cannabis Regulatory Agency (CRA)",
          entity_type := ["other"], filing_documents_url := none,
          license_conditions := [], claimed := false, claimedBy := none,
          claimedAt := none, canojaVerified := false,
          adminVerificationRequired := false, featured := false, dba := none,
          state_license_document := none, utility_bill := none,
          gps_validation := false, location_type := "Point", coordinates := [],
          smoke_shop := false }
        googlePlaceId := none, michigan_record_number := none,
        michigan_record_type := none, michigan_notes := none,
        michigan_disciplinary_action := none, michigan_raw_status := none } :=
  ⟨rfl, rfl, rfl, rfl, rfl, rfl, rfl, rfl, rfl, rfl, rfl, rfl, by decide, by decide⟩

/-- C3: the driver loops isolate per-record failures — a record whose
transform raises is skipped and the rest of the batch is processed, so the
batch operation is total (it is a Lean function) and yields the empty
batch on an empty record sequence. -/
theorem driver_isolates_record_failures :
    (∀ (ρ δ : Type) (tf : ρ → Except String δ) (xs ys : List ρ) (r : ρ) (e : String),
        tf r = Except.error e →
        scrape_loop tf (xs ++ r :: ys) = scrape_loop tf (xs ++ ys))
    ∧ (∀ (ρ δ : Type) (tf : ρ → Except String δ) (gate : δ → Bool)
        (xs ys : List ρ) (r : ρ) (e : String),
        tf r = Except.error e →
        scrape_loop_gated tf gate (xs ++ r :: ys) = scrape_loop_gated tf gate (xs ++ ys))
    ∧ (∀ (ρ δ : Type) (tf : ρ → Except String δ),
        scrape_loop tf ([] : List ρ) = ([] : List δ)) := by
  refine ⟨?_, ?_, fun _ _ _ => rfl⟩
  · intro ρ δ tf xs ys r e h
    induction xs with
    | nil => simp [scrape_loop, h]
    | cons x xs ih =>
      simp only [List.cons_append, scrape_loop, List.append_eq]
      rw [ih]
  · intro ρ δ tf gate xs ys r e h
    induction xs with
    | nil => simp [scrape_loop_gated, h]
    | cons x xs ih =>
      simp only [List.cons_append, scrape_loop_gated, List.append_eq]
      rw [ih]

/-- C3 witness: a one-record batch whose transform raises produces the same
output as the empty batch. -/
theorem driver_isolation_witness :
    scrape_loop (fun _ : Row => (Except.error "boom" : Except String Doc)) [emptyRow]
      = scrape_loop (fun _ : Row => (Except.error "boom" : Except String Doc)) [] :=
  driver_isolates_record_failures.1 Row Doc _ [] [] emptyRow "boom" rfl

/-- C4 counterexample: the Colorado transform is not a pure function of the
record — the same record transformed at two different clock readings
yields documents that differ (in license_status), refuting byte-identical
idempotence as claimed. -/
theorem colorado_transform_time_dependent :
    (Colorado.transform_row_to_schema ⟨2024, 1, 15⟩ coloradoClockRow).core.license_status
        = some "Active"
    ∧ (Colorado.transform_row_to_schema ⟨2024, 12, 31⟩ coloradoClockRow).core.license_status
        = some "Unknown"
    ∧ Colorado.transform_row_to_schema ⟨2024, 1, 15⟩ coloradoClockRow
        ≠ Colorado.transform_row_to_schema ⟨2024, 12, 31⟩ coloradoClockRow := by
  decide

/-- C4 (amended): the Colorado transform is a pure function of the record
and the current clock reading; every field other than license_status is
independent of the clock, and license_status is exactly the wall-clock
dependent get_license_status of the cleaned 'Date Updated' value, so
transforming the same record twice at the same instant is byte-identical
while license_status may change across instants. -/
theorem colorado_transform_pure_up_to_clock (row : Row) (t1 t2 : PDateTime) :
    (let d1 := Colorado.transform_row_to_schema t1 row
     let d2 := Colorado.transform_row_to_schema t2 row
     ({ d1 with core := { d1.core with license_status := none } } : ColoradoDoc)
       = { d2 with core := { d2.core with license_status := none } })
    ∧ (Colorado.transform_row_to_schema t1 row).core.license_status
        = some (Colorado.get_license_status
            (Colorado.clean_string (row "Date Updated")) t1) :=
  ⟨rfl, rfl⟩

/-- String tail of a phone parse: non-empty digit lists are exactly those
of length at least one. -/
theorem phone_tail_eq (ds : List Char) :
    (if ds ≠ [] then some (String.mk ds) else none)
      = (if 1 ≤ ds.length then some (String.mk ds) else none) := by
  cases ds <;> simp

/-- C5: the phone parsers refine the spec formatter — Alberta (and BC)
with effective minimum digit length 1 and Colorado with minimum 7: all
strip non-digits, format 10 digits as (XXX) XXX-XXXX and 11 digits led by
1 as 1-(XXX) XXX-XXXX, and otherwise return the raw digit string when the
minimum is met, else absent; the spec's concrete examples evaluate as
claimed. -/
theorem parse_phone_matches_spec :
    (∀ s : String, Alberta.parse_phone_number (PyVal.pstr s) = parse_phone_spec 1 s)
    ∧ (∀ s : String, Colorado.parse_phone_number (PyVal.pstr s) = parse_phone_spec 7 s)
    ∧ (∀ s : String, BC.parse_phone_number (PyVal.pstr s) = parse_phone_spec 1 s)
    ∧ Alberta.parse_phone_number (PyVal.pstr "403-555-1234") = some "(403) 555-1234"
    ∧ Alberta.parse_phone_number (PyVal.pstr "14035551234") = some "1-(403) 555-1234"
    ∧ Alberta.parse_phone_number (PyVal.pstr "abc") = none
    ∧ Colorado.parse_phone_number (PyVal.pstr "123456") = none
    ∧ Colorado.parse_phone_number (PyVal.pstr "1234567") = some "1234567" := by
  have halb : ∀ s : String, Alberta.parse_phone_number (PyVal.pstr s) = parse_phone_spec 1 s := by
    intro s
    by_cases hs : s = ""
    · subst hs; rfl
    · simp only [Alberta.parse_phone_number, parse_phone_spec, PyVal.truthy,
        PyVal.isna, PyVal.pyStr, digitsOnly, fmtPhone10, fmtPhone11]
      rw [if_neg (by simp [hs])]
      rw [phone_tail_eq]
  have hbc : ∀ s : String, BC.parse_phone_number (PyVal.pstr s) = parse_phone_spec 1 s := by
    intro s
    by_cases hs : s = ""
    · subst hs; rfl
    · simp only [BC.parse_phone_number, parse_phone_spec, PyVal.truthy,
        PyVal.isna, PyVal.pyStr, digitsOnly, fmtPhone10, fmtPhone11]
      rw [if_neg (by simp [hs])]
      rw [phone_tail_eq]
  have hco : ∀ s : String, Colorado.parse_phone_number (PyVal.pstr s) = parse_phone_spec 7 s := by
    intro s
    by_cases hs : s = ""
    · subst hs; rfl
    · simp only [Colorado.parse_phone_number, parse_phone_spec, PyVal.truthy,
        PyVal.isna, PyVal.pyStr, digitsOnly, fmtPhone10, fmtPhone11]
      rw [if_neg (by simp [hs])]
      by_cases hds : s.data.filter Char.isDigit = []
      · simp [hds]
      · rw [if_neg (by simp [List.isEmpty_iff, hds])]
  exact ⟨halb, hco, hbc, by decide, by decide, by decide, by decide, by decide⟩

/-- Mapping the isoformat constructor over a parse result always yields an
ISO-string-shaped optional result. -/
theorem isoOnly_map_isoformat (o : Option PDateTime) :
    isoOnly (o.map fun d => DateResult.isoStr d.isoformat) = true := by
  cases o <;> rfl

/-- Mapping the datetime-object constructor over a parse result always
yields a datetime-shaped optional result. -/
theorem pyDtOnly_map (o : Option PDateTime) :
    pyDtOnly (o.map fun d => DateResult.pyDt d) = true := by
  cases o <;> rfl

/-- C6 counterexample: Michigan's parse_date returns a native datetime
OBJECT on success — not an ISO-8601 string — and the object's serialized
form differs from the ISO form, refuting the claim that every
jurisdiction's date parser returns an ISO-8601 timestamp string. -/
theorem michigan_parse_date_returns_datetime_object :
    Michigan.parse_date (some "7/10/2022") = some (DateResult.pyDt ⟨2022, 7, 10⟩)
    ∧ isoOnly (Michigan.parse_date (some "7/10/2022")) = false
    ∧ (⟨2022, 7, 10⟩ : PDateTime).pyStr ≠ (⟨2022, 7, 10⟩ : PDateTime).isoformat := by
  decide

/-- C6 (amended): every jurisdiction's parse_date is total (never raises:
each is a Lean function) and returns absent on unparseable input; the
Alberta, Colorado, Federal, Ontario, Jamaica and Saskatchewan parsers
return an ISO-8601 string or absent, while Michigan's returns a native
datetime object or absent; heterogeneous string formats and native
datetime values are accepted as the concrete cases show. -/
theorem parse_date_total_and_result_shape :
    (∀ v : PyVal, isoOnly (Alberta.parse_date v) = true)
    ∧ (∀ v : Option String, isoOnly (Colorado.parse_date v) = true)
    ∧ (∀ s : String, isoOnly (Federal.parse_date s) = true)
    ∧ (∀ v : Option String, isoOnly (Ontario.parse_date v) = true)
    ∧ (∀ v : Option String, isoOnly (Jamaica.parse_date v) = true)
    ∧ (∀ v : PyVal, isoOnly (Sask.parse_date v) = true)
    ∧ (∀ v : Option String, pyDtOnly (Michigan.parse_date v) = true)
    ∧ Alberta.parse_date (PyVal.pstr "7/10/2022")
        = some (DateResult.isoStr "2022-07-10T00:00:00")
    ∧ Alberta.parse_date (PyVal.pstr "abc") = none
    ∧ Alberta.parse_date (PyVal.pdt ⟨2022, 7, 10⟩)
        = some (DateResult.isoStr "2022-07-10T00:00:00")
    ∧ Michigan.parse_date (some "abc") = none
    ∧ Michigan.parse_date (some "7/10/2022") = some (DateResult.pyDt ⟨2022, 7, 10⟩)
    ∧ Federal.parse_date "2025-01-12" = some (DateResult.isoStr "2025-01-12T00:00:00")
    ∧ Federal.parse_date "2025-01-12 deprecated" = none
    ∧ Jamaica.parse_date (some "2025-01-12")
        = some (DateResult.isoStr "2025-01-12T00:00:00") := by
  refine ⟨?_, ?_, ?_, ?_, ?_, ?_, ?_, by decide, by decide, by decide, by decide,
    by decide, by decide, by decide, by decide⟩
  · intro v
    cases v with
    | pstr s => exact isoOnly_map_isoformat _
    | pnone => rfl
    | pint n => rfl
    | pfloat q => rfl
    | pdt d => rfl
  · intro v
    cases v with
    | none => rfl
    | some s =>
      simp only [Colorado.parse_date]
      split_ifs <;> first | rfl | exact isoOnly_map_isoformat _
  · intro s
    simp only [Federal.parse_date]
    split_ifs with h
    · rfl
    · split <;> first | (split_ifs <;> rfl) | rfl
  · intro v
    cases v with
    | none => rfl
    | some s =>
      simp only [Ontario.parse_date]
      split_ifs <;> first | rfl | exact isoOnly_map_isoformat _
  · intro v
    cases v with
    | none => rfl
    | some s =>
      simp only [Jamaica.parse_date]
      split_ifs <;> first | rfl | exact isoOnly_map_isoformat _
  · intro v
    cases v with
    | pstr s => exact isoOnly_map_isoformat _
    | pnone => rfl
    | pint n => rfl
    | pfloat q => rfl
    | pdt d => rfl
  · intro v
    cases v with
    | none => rfl
    | some s =>
      simp only [Michigan.parse_date]
      split_ifs <;> first | rfl | exact pyDtOnly_map _

/-- C7 counterexample: Michigan's classifier checks its retailer keyword
group BEFORE its grower/cultivation group, so a record type containing
keywords of both categories is classified 'retail', refuting the claim
that cultivation keywords are checked before retail keywords in every
jurisdiction. -/
theorem michigan_checks_retail_before_cultivation :
    strContains (pyLower "Cultivation Retailer") "cultivation" = true
    ∧ Michigan.determine_license_type (some "Cultivation Retailer") = "retail"
    ∧ "retail" ≠ "cultivation" := by
  decide

/-- C7 (amended): each classifier evaluates its keyword groups in a fixed
order with the first matching group winning (the classifiers are
deterministic Lean functions); Alberta and BC check cultivation keywords
first (any text containing one classifies as 'cultivation'), but Michigan
checks its retail group first (any record type containing a retail keyword
classifies as 'retail'); the no-match defaults are 'retail' for
BC/Ontario/Saskatchewan (and Jamaica) and 'other' for
Alberta/Colorado/Michigan. -/
theorem license_type_priority_and_defaults :
    (∀ s : String, containsAny (pyLower s) ["cultivation", "grow", "farm"] = true →
        Alberta.determine_license_type (some s) = "cultivation")
    ∧ (∀ s : String, containsAny (pyLower s) ["retailer", "retail"] = true →
        Michigan.determine_license_type (some s) = "retail")
    ∧ (∀ s : String, containsAny (pyLower s) ["cultivation", "grow", "farm", "grower"] = true →
        BC.determine_license_type (some s) = "cultivation")
    ∧ Alberta.determine_license_type none = "other"
    ∧ Michigan.determine_license_type none = "other"
    ∧ Colorado.determine_license_type none none = "other"
    ∧ BC.determine_license_type none = "retail"
    ∧ Ontario.determine_license_type none = "retail"
    ∧ Sask.determine_license_type_from_name none = "retail"
    ∧ Jamaica.determine_license_type (some "unusual descriptor") = "retail" := by
  refine ⟨?_, ?_, ?_, by decide, by decide, by decide, by decide, by decide,
    by decide, by decide⟩
  · intro s h
    by_cases hs : s = ""
    · subst hs; revert h; decide
    · simp only [Alberta.determine_license_type, truthyOpt, orEmpty, hs]
      simp [h, hs]
  · intro s h
    by_cases hs : s = ""
    · subst hs; revert h; decide
    · simp only [Michigan.determine_license_type, truthyOpt, orEmpty, hs]
      simp [h, hs]
  · intro s h
    by_cases hs : s = ""
    · subst hs; revert h; decide
    · simp only [BC.determine_license_type, truthyOpt, orEmpty, hs]
      simp [h, hs]

/-- C7 witness: the priority facts applied at concrete names. -/
theorem license_type_priority_witness :
    Alberta.determine_license_type (some "Grow Op Dispensary") = "cultivation"
    ∧ Michigan.determine_license_type (some "Retailer and Grower") = "retail"
    ∧ BC.determine_license_type (some "Farm Gate Store") = "cultivation" :=
  ⟨license_type_priority_and_defaults.1 "Grow Op Dispensary" (by decide),
   license_type_priority_and_defaults.2.1 "Retailer and Grower" (by decide),
   license_type_priority_and_defaults.2.2.1 "Farm Gate Store" (by decide)⟩

/-- C8 counterexample: the Alberta postal-code search returns the match
uppercased with its ORIGINAL spacing — a spaceless match is not respaced
to the canonical "AAA BBB" form, refuting that part of the claim. -/
theorem alberta_postal_match_keeps_original_spacing :
    Alberta.extract_postal_code (some "123 Main St, Calgary T2P1J9") none = some "T2P1J9"
    ∧ (some "T2P1J9" : Option String) ≠ some "T2P 1J9" := by
  decide

/-- C8 (amended): Alberta's extract_postal_code prefers the explicit
field's trimmed value whenever it is non-empty; otherwise it searches the
address for the Canadian postal pattern case-insensitively and returns the
first match uppercased with its original spacing preserved (no canonical
respacing), and absent when neither yields a value; the spec's concrete
example holds because its input already contains the space.  BC's variant
formats only the explicit postal field, inserting the canonical space into
six-character values. -/
theorem extract_postal_code_behavior :
    (∀ (a : Option String) (sp : String), sp ≠ "" → pyStrip sp ≠ "" →
        Alberta.extract_postal_code a (some sp) = some (pyStrip sp))
    ∧ Alberta.extract_postal_code (some "123 Main St, Calgary T2P 1J9") none
        = some "T2P 1J9"
    ∧ Alberta.extract_postal_code (some "123 main st t2p 1j9") none = some "T2P 1J9"
    ∧ Alberta.extract_postal_code (some "123 Main St, Calgary T2P1J9") none
        = some "T2P1J9"
    ∧ Alberta.extract_postal_code (some "123 Main St") none = none
    ∧ Alberta.extract_postal_code none none = none
    ∧ BC.extract_postal_code (PyVal.pstr "t2p1j9") = some "T2P 1J9"
    ∧ BC.extract_postal_code (PyVal.pstr "T2P 1J9") = some "T2P 1J9"
    ∧ BC.extract_postal_code (PyVal.pstr "12345678") = some "12345678"
    ∧ BC.extract_postal_code PyVal.pnone = none := by
  refine ⟨?_, by decide, by decide, by decide, by decide, by decide, by decide,
    by decide, by decide, by decide⟩
  intro a sp h1 h2
  simp [Alberta.extract_postal_code, truthyOpt, orEmpty, h1, h2]

/-- C8 witness: a non-empty explicit postal field is returned trimmed. -/
theorem extract_postal_code_witness :
    Alberta.extract_postal_code (some "ignored") (some " V6B 2W9 ") = some "V6B 2W9" :=
  extract_postal_code_behavior.1 (some "ignored") " V6B 2W9 " (by decide) (by decide)

/-- The pagination loop on a failed fetch stops at the current page. -/
theorem scrape_pages_from_fail (web : Nat → Option JPage) (page : Nat)
    (hw : web page = none) :
    Jamaica.scrape_pages_from web page = ([], [page]) := by
  rw [Jamaica.scrape_pages_from, hw]

/-- The pagination loop on a page yielding zero parsed licenses stops at
the current page. -/
theorem scrape_pages_from_empty (web : Nat → Option JPage) (page : Nat) (pg : JPage)
    (hw : web page = some pg) (hemp : (Jamaica.scrape_table_data pg.rows).isEmpty = true) :
    Jamaica.scrape_pages_from web page = ([], [page]) := by
  rw [Jamaica.scrape_pages_from, hw]
  simp only [hemp, if_true]

/-- The pagination loop stops after the current page when the next-page
link is missing or the incremented counter exceeds the 50-page cap. -/
theorem scrape_pages_from_last (web : Nat → Option JPage) (page : Nat) (pg : JPage)
    (hw : web page = some pg) (hemp : ¬ (Jamaica.scrape_table_data pg.rows).isEmpty = true)
    (hstop : (!pg.hasNext) = true ∨ page + 1 > 50) :
    Jamaica.scrape_pages_from web page = (Jamaica.scrape_table_data pg.rows, [page]) := by
  rw [Jamaica.scrape_pages_from, hw]
  simp only [hemp, if_false]
  rcases hstop with h | h
  · simp only [h, if_true]
    simp
  · by_cases hn : (!pg.hasNext) = true
    · simp only [hn, if_true]
      simp
    · simp only [hn, if_false]
      rw [dif_pos h]
      simp

/-- The pagination loop continues to the next page only when the fetch
succeeded, rows were parsed, a next link exists and the counter allows it. -/
theorem scrape_pages_from_step (web : Nat → Option JPage) (page : Nat) (pg : JPage)
    (hw : web page = some pg) (hemp : ¬ (Jamaica.scrape_table_data pg.rows).isEmpty = true)
    (hnext : ¬ (!pg.hasNext) = true) (hcap : ¬ page + 1 > 50) :
    Jamaica.scrape_pages_from web page
      = (Jamaica.scrape_table_data pg.rows ++ (Jamaica.scrape_pages_from web (page + 1)).1,
         page :: (Jamaica.scrape_pages_from web (page + 1)).2) := by
  rw [Jamaica.scrape_pages_from, hw]
  simp only [hemp, hnext, if_false]
  rw [dif_neg hcap]
  simp

/-- Invariant of the pagination loop from any in-range start page: the
visited pages are at most 51 minus the start page, all visited pages are
in range, and a page is followed only when its fetch succeeded with parsed
rows, a next link, and the successor within the cap. -/
theorem scrape_pages_from_spec (web : Nat → Option JPage) :
    ∀ (n page : Nat), page ≤ 50 → 51 - page ≤ n →
      ((Jamaica.scrape_pages_from web page).2.length ≤ 51 - page
       ∧ (∀ q ∈ (Jamaica.scrape_pages_from web page).2, page ≤ q ∧ q ≤ 50)
       ∧ (∀ q, page ≤ q → q + 1 ∈ (Jamaica.scrape_pages_from web page).2 →
           ∃ pg, web q = some pg ∧ (Jamaica.scrape_table_data pg.rows).isEmpty = false
             ∧ pg.hasNext = true ∧ q + 1 ≤ 50)) := by
  intro n
  induction n with
  | zero => intro page h50 hn; omega
  | succ n ih =>
    intro page h50 hn
    cases hw : web page with
    | none =>
      rw [scrape_pages_from_fail web page hw]
      refine ⟨by simp; omega, ?_, ?_⟩
      · intro q hq
        simp only [List.mem_singleton] at hq
        omega
      · intro q hq hmem
        simp only [List.mem_singleton] at hmem
        omega
    | some pg =>
      by_cases hemp : (Jamaica.scrape_table_data pg.rows).isEmpty = true
      · rw [scrape_pages_from_empty web page pg hw hemp]
        refine ⟨by simp; omega, ?_, ?_⟩
        · intro q hq
          simp only [List.mem_singleton] at hq
          omega
        · intro q hq hmem
          simp only [List.mem_singleton] at hmem
          omega
      · by_cases hstop : (!pg.hasNext) = true ∨ page + 1 > 50
        · rw [scrape_pages_from_last web page pg hw hemp hstop]
          refine ⟨by simp; omega, ?_, ?_⟩
          · intro q hq
            simp only [List.mem_singleton] at hq
            omega
          · intro q hq hmem
            simp only [List.mem_singleton] at hmem
            omega
        · push_neg at hstop
          obtain ⟨hnext, hcap⟩ := hstop
          rw [scrape_pages_from_step web page pg hw hemp hnext (by omega)]
          obtain ⟨ihl, ihm, ihs⟩ := ih (page + 1) (by omega) (by omega)
          refine ⟨?_, ?_, ?_⟩
          · simp only [List.length_cons]
            omega
          · intro q hq
            simp only [List.mem_cons] at hq
            rcases hq with hq | hq
            · omega
            · have := ihm q hq
              omega
          · intro q hq hmem
            simp only [List.mem_cons] at hmem
            rcases hmem with hmem | hmem
            · omega
            · by_cases hqp : q = page
              · subst hqp
                refine ⟨pg, hw, by simpa using hemp, by simpa using hnext, by omega⟩
              · have hq1 : page + 1 ≤ q := by omega
                exact ihs q hq1 hmem

/-- C9: the paginated Jamaica extraction terminates (the traversal is a
total Lean function) and fetches at most 50 pages, each with number
between 1 and 50; page p+1 is fetched only when page p's fetch succeeded,
yielded at least one parsed license row, exposed a next-page link, and
p+1 is still within the 50-page safety cap — so the loop stops on a
failed fetch, an empty page, a missing link, or the counter exceeding 50. -/
theorem pagination_capped_and_stop_conditions (web : Nat → Option JPage) :
    (Jamaica.visited_pages web).length ≤ 50
    ∧ (∀ p ∈ Jamaica.visited_pages web, 1 ≤ p ∧ p ≤ 50)
    ∧ (∀ p, 1 ≤ p → p + 1 ∈ Jamaica.visited_pages web →
        ∃ pg, web p = some pg ∧ (Jamaica.scrape_table_data pg.rows).isEmpty = false
          ∧ pg.hasNext = true ∧ p + 1 ≤ 50) := by
  have h := scrape_pages_from_spec web 50 1 (by omega) (by omega)
  refine ⟨by simpa using h.1, ?_, ?_⟩
  · intro p hp
    exact h.2.1 p hp
  · intro p hp1 hmem
    exact h.2.2 p hp1 hmem

/-- C9 witness: on the concrete three-page site the traversal visits pages
1, 2 and 3 and the theorem's bound and stop conditions instantiate. -/
theorem pagination_witness :
    (Jamaica.visited_pages jamSite).length ≤ 50
    ∧ (1 ≤ 2 ∧ 2 ≤ 50)
    ∧ (∃ pg, jamSite 1 = some pg ∧ (Jamaica.scrape_table_data pg.rows).isEmpty = false
        ∧ pg.hasNext = true ∧ 1 + 1 ≤ 50) := by
  have h3 : Jamaica.scrape_pages_from jamSite 3 = ([], [3]) :=
    scrape_pages_from_fail jamSite 3 rfl
  have h2 : Jamaica.scrape_pages_from jamSite 2
      = (Jamaica.scrape_table_data jamSitePage.rows ++ [], 2 :: [3]) := by
    rw [scrape_pages_from_step jamSite 2 jamSitePage rfl (by decide) (by decide)
      (by omega), h3]
  have h1 : Jamaica.scrape_pages_from jamSite 1
      = (Jamaica.scrape_table_data jamSitePage.rows
          ++ (Jamaica.scrape_table_data jamSitePage.rows ++ []), 1 :: 2 :: [3]) := by
    rw [scrape_pages_from_step jamSite 1 jamSitePage rfl (by decide) (by decide)
      (by omega), h2]
  have hv : Jamaica.visited_pages jamSite = [1, 2, 3] := by
    unfold Jamaica.visited_pages
    rw [h1]
  have hth := pagination_capped_and_stop_conditions jamSite
  refine ⟨hth.1, hth.2.1 2 ?_, hth.2.2 1 (by omega) ?_⟩
  · rw [hv]; simp
  · rw [hv]; simp

/-- Nonemptiness of the Ontario coordinate pair characterised by
truthiness and float-convertibility of the two source attributes. -/
theorem attr_coordinates_nonempty_iff (lon lat : PyVal) :
    Ontario.attr_coordinates lon lat ≠ [] ↔
      (lon.truthy = true ∧ lat.truthy = true
        ∧ ∃ x y, pyFloat lon = some x ∧ pyFloat lat = some y
            ∧ Ontario.attr_coordinates lon lat = [x, y]) := by
  by_cases h1 : lon.truthy = true
  · by_cases h2 : lat.truthy = true
    · cases hx : pyFloat lon with
      | none => simp [Ontario.attr_coordinates, h1, h2, hx]
      | some x =>
        cases hy : pyFloat lat with
        | none => simp [Ontario.attr_coordinates, h1, h2, hx, hy]
        | some y => simp [Ontario.attr_coordinates, h1, h2, hx, hy]
    · simp [Ontario.attr_coordinates, h1, h2]
  · simp [Ontario.attr_coordinates, h1]

/-- C10: in every Ontario output document gps_validation is true exactly
when location.coordinates is non-empty, and coordinates is non-empty
exactly when the Longitude and Latitude attributes are both truthy and
both convert to floats, in which case coordinates is the ordered pair
[longitude, latitude]; in every other case coordinates is empty and
gps_validation false. -/
theorem ontario_gps_validation_iff_coordinates (attributes : Row) :
    ((Ontario.transform_record_to_schema attributes).core.gps_validation = true
      ↔ (Ontario.transform_record_to_schema attributes).core.coordinates ≠ [])
    ∧ ((Ontario.transform_record_to_schema attributes).core.coordinates ≠ []
      ↔ ((attributes "Longitude").truthy = true ∧ (attributes "Latitude").truthy = true
         ∧ ∃ x y, pyFloat (attributes "Longitude") = some x
             ∧ pyFloat (attributes "Latitude") = some y
             ∧ (Ontario.transform_record_to_schema attributes).core.coordinates = [x, y])) := by
  have hc : (Ontario.transform_record_to_schema attributes).core.coordinates
      = Ontario.attr_coordinates (attributes "Longitude") (attributes "Latitude") := rfl
  have hg : (Ontario.transform_record_to_schema attributes).core.gps_validation
      = !(Ontario.attr_coordinates (attributes "Longitude")
          (attributes "Latitude")).isEmpty := rfl
  constructor
  · rw [hg, hc]
    cases h : Ontario.attr_coordinates (attributes "Longitude") (attributes "Latitude") <;>
      simp [h]
  · rw [hc]
    exact attr_coordinates_nonempty_iff _ _

/-- C10 witness: a record with integral Longitude and Latitude attributes
gets gps_validation set. -/
theorem ontario_gps_witness :
    (Ontario.transform_record_to_schema ontarioCoordRow).core.gps_validation = true :=
  (ontario_gps_validation_iff_coordinates ontarioCoordRow).1.mpr (by decide)
